import Mathlib

/-!
Shallow embedding of `src/utils/aiHelper.ts` — a single-function adapter
(`generateContent`) that either POSTs to an OpenAI-compatible chat-completions
endpoint (Path A, taken when `req.baseUrl` is truthy) or calls the Google
Gemini SDK (Path B, otherwise).

Optional string fields of the TypeScript interface are modelled as
`Option String`.  JavaScript truthiness on such a field (`if (req.baseUrl)`)
is false both for an absent field and for the empty string; `truthy` captures
exactly that.  The `jsonSchema` field is typed `any` in the source but is by
the spec an opaque structured value (a schema object), and a JavaScript object
is always truthy, so it is modelled as `Option Schema` with presence = truthy.

Network effects are modelled by passing the would-be transport responses as
arguments: `generateContent` returns an `Outcome` recording which path ran,
the outbound request it built (endpoint + body, or SDK call), and the result
computed from the given response.
-/

set_option autoImplicit false

namespace AiHelper

/-- JavaScript truthiness of an optional string field: an absent field and the
empty string are falsy, every other string is truthy. -/
def truthy : Option String → Bool
  | none => false
  | some s => s != ""

/-- The `jsonSchema` field (`any` in TS, "opaque structured value" per the
spec): a JSON-object-like schema, always truthy in JavaScript. -/
structure Schema where
  fields : List (String × String)
  deriving DecidableEq, Repr

/-- The `AIRequest` interface of `aiHelper.ts`. -/
structure AIRequest where
  apiKey : String
  model : String
  baseUrl : Option String
  prompt : String
  systemInstruction : Option String
  image : Option String
  mimeType : Option String
  jsonSchema : Option Schema
  deriving DecidableEq, Repr

/-- Line 19: `const mimeType = req.mimeType || 'image/png';` (falls back on
absent or empty string, by `||` truthiness). -/
def effMimeType (req : AIRequest) : String :=
  match req.mimeType with
  | none => "image/png"
  | some m => if m = "" then "image/png" else m

/-- One element of a Path A user-content parts array: `{type:'text',text}` or
`{type:'image_url', image_url:{url}}`. -/
inductive ContentPart where
  | text (t : String)
  | imageUrl (url : String)
  deriving DecidableEq, Repr

/-- Chat-message content: a bare string (system messages, line 29) or a parts
array (user message, line 33). -/
inductive MsgContent where
  | str (s : String)
  | parts (ps : List ContentPart)
  deriving DecidableEq, Repr

/-- A chat message `{role, content}` of the Path A body. -/
structure ChatMessage where
  role : String
  content : MsgContent
  deriving DecidableEq, Repr

/-- The Path A request body: `{model, messages, stream: false}` plus the
optional `response_format` set at line 53 (`some "json_object"` models
`{type: "json_object"}`). -/
structure RequestBody where
  model : String
  messages : List ChatMessage
  stream : Bool
  response_format : Option String
  deriving DecidableEq, Repr

/-- Lines 33–41: the user-content array — a text part holding the prompt,
then, if `req.image` is truthy, an image part whose URL is the data URI
`data:<mimeType>;base64,<image>`. -/
def userContent (req : AIRequest) : List ContentPart :=
  [ContentPart.text req.prompt] ++
    (if truthy req.image then
      [ContentPart.imageUrl
        ("data:" ++ effMimeType req ++ ";base64," ++ req.image.getD "")]
    else [])

/-- Lines 25–43: the messages array — an optional leading system message
(bare-string content), then the user message (parts-array content). -/
def baseMessages (req : AIRequest) : List ChatMessage :=
  (if truthy req.systemInstruction then
    [ChatMessage.mk "system" (MsgContent.str (req.systemInstruction.getD ""))]
  else []) ++
    [ChatMessage.mk "user" (MsgContent.parts (userContent req))]

/-- The literal suffix appended at lines 57/59. -/
def jsonSuffix : String := "\n\nPlease respond in valid JSON format."

/-- Lines 55–60: mutate the last message — append `jsonSuffix` to a
bare-string content, or to the `text` of element 0 of a parts-array content.
(An empty parts array, or a parts array whose head is an image part, never
occurs for messages this function builds — see the C10 invariant — and is
left unchanged here.) -/
def appendJsonSuffix (m : ChatMessage) : ChatMessage :=
  match m.content with
  | MsgContent.str s => { m with content := MsgContent.str (s ++ jsonSuffix) }
  | MsgContent.parts [] => m
  | MsgContent.parts (ContentPart.text t :: rest) =>
      { m with content := MsgContent.parts (ContentPart.text (t ++ jsonSuffix) :: rest) }
  | MsgContent.parts (ContentPart.imageUrl u :: rest) =>
      { m with content := MsgContent.parts (ContentPart.imageUrl u :: rest) }

/-- Apply `f` to the last element of a list (models the in-place mutation of
`messages[messages.length - 1]`). -/
def mapLast {α : Type} (f : α → α) : List α → List α
  | [] => []
  | [a] => [f a]
  | a :: b :: rest => a :: mapLast f (b :: rest)

/-- Lines 45–61: the final body — base messages, `stream: false`, and, when
`req.jsonSchema` is present, `response_format = json_object` plus the suffix
appended to the last message. -/
def buildBody (req : AIRequest) : RequestBody :=
  if req.jsonSchema.isSome then
    { model := req.model
      messages := mapLast appendJsonSuffix (baseMessages req)
      stream := false
      response_format := some "json_object" }
  else
    { model := req.model
      messages := baseMessages req
      stream := false
      response_format := none }

/-- Line 65: `req.baseUrl.replace(/\/+$/, '')` — remove every trailing
slash. -/
def stripTrailingSlashes (s : String) : String :=
  String.mk ((s.data.reverse.dropWhile (fun c => c == '/')).reverse)

/-- Boolean string-suffix test (models `String.prototype.endsWith`). -/
def strEndsWith (s t : String) : Bool :=
  t.data.isSuffixOf s.data

/-- Lines 65–68: the endpoint — trailing slashes stripped, `/chat/completions`
appended unless already the suffix. -/
def buildEndpoint (baseUrl : String) : String :=
  let cleanBaseUrl := stripTrailingSlashes baseUrl
  if strEndsWith cleanBaseUrl "/chat/completions" then cleanBaseUrl
  else cleanBaseUrl ++ "/chat/completions"

/-- The success-response shape `data.choices?.[0]?.message?.content`: every
level optional, to model the optional chaining at line 86. -/
structure RespMessage where
  content : Option String
  deriving DecidableEq, Repr

/-- One element of `data.choices`. -/
structure RespChoice where
  message : Option RespMessage
  deriving DecidableEq, Repr

/-- The parsed JSON of a successful Path A response. -/
structure ApiResponse where
  choices : Option (List RespChoice)
  deriving DecidableEq, Repr

/-- Line 86: `data.choices?.[0]?.message?.content` with optional chaining. -/
def extractContent (data : ApiResponse) : Option String :=
  match data.choices with
  | none => none
  | some cs =>
    match cs.head? with
    | none => none
    | some c =>
      match c.message with
      | none => none
      | some m => m.content

/-- The `fetch` response as Path A consumes it: a status code, the body read
as text (line 81, error branch), and the body parsed as JSON (line 85,
success branch). -/
structure HttpResponse where
  status : Nat
  bodyText : String
  json : ApiResponse
  deriving DecidableEq, Repr

/-- `response.ok` of the Fetch API: status in the range 200–299. -/
def HttpResponse.ok (r : HttpResponse) : Bool :=
  200 ≤ r.status && r.status < 300

/-- Lines 80–89, the `try` block after the fetch resolves: on `!response.ok`
throw `API Error <status>: <body>`; on success extract the content and throw
`No content in response` when it is absent or empty (`!result`). -/
def pathATry (resp : HttpResponse) : Except String String :=
  if !resp.ok then
    Except.error ("API Error " ++ toString resp.status ++ ": " ++ resp.bodyText)
  else
    match extractContent resp.json with
    | none => Except.error "No content in response"
    | some c => if c = "" then Except.error "No content in response" else Except.ok c

/-- Lines 90–93, the `catch`: every thrown error is rethrown as
`AI Request Failed: <original message>`. -/
def wrapError : Except String String → Except String String
  | Except.error m => Except.error ("AI Request Failed: " ++ m)
  | Except.ok v => Except.ok v

/-- Path A end to end from the transport response: the `try` block with its
`catch` wrapper. -/
def pathA (resp : HttpResponse) : Except String String :=
  wrapError (pathATry resp)

/-- One element of the Path B parts array: `{inlineData:{mimeType,data}}` or
`{text}`. -/
inductive GeminiPart where
  | inlineData (mimeType : String) (data : String)
  | text (t : String)
  deriving DecidableEq, Repr

/-- Lines 101–105: the Path B parts — the inline-data image part first when
`req.image` is truthy, then always the text part holding the prompt. -/
def geminiParts (req : AIRequest) : List GeminiPart :=
  (if truthy req.image then
    [GeminiPart.inlineData (effMimeType req) (req.image.getD "")]
  else []) ++
    [GeminiPart.text req.prompt]

/-- The Path B `config` object (lines 107–114): optional `systemInstruction`,
and `responseMimeType`/`responseSchema` set together when `req.jsonSchema` is
present. -/
structure GeminiConfig where
  systemInstruction : Option String
  responseMimeType : Option String
  responseSchema : Option Schema
  deriving DecidableEq, Repr

/-- Lines 107–114: build the config. -/
def geminiConfig (req : AIRequest) : GeminiConfig :=
  { systemInstruction :=
      if truthy req.systemInstruction then req.systemInstruction else none
    responseMimeType :=
      if req.jsonSchema.isSome then some "application/json" else none
    responseSchema :=
      if req.jsonSchema.isSome then req.jsonSchema else none }

/-- The argument of `ai.models.generateContent` at lines 116–120:
`{model, contents: {parts}, config}`. -/
structure GeminiCall where
  model : String
  parts : List GeminiPart
  config : GeminiConfig
  deriving DecidableEq, Repr

/-- Lines 99–120: the SDK call Path B issues. -/
def buildGeminiCall (req : AIRequest) : GeminiCall :=
  { model := req.model, parts := geminiParts req, config := geminiConfig req }

/-- The SDK response as Path B consumes it: only its optional `text` field is
read (line 122). -/
structure GeminiResponse where
  text : Option String
  deriving DecidableEq, Repr

/-- Line 122: `response.text || ""` — the text when truthy, else the empty
string. Path B never fails on missing text. -/
def pathB (resp : GeminiResponse) : String :=
  match resp.text with
  | none => ""
  | some t => if t = "" then "" else t

deriving instance DecidableEq for Except

/-- What one call of `generateContent` does: which path ran, the outbound
request it built, and the result computed from the transport response. Path A
results are `Except` (the function can throw); Path B results are plain
strings (that path has no failure branch of its own). -/
inductive Outcome where
  | httpRequest (endpoint : String) (body : RequestBody) (result : Except String String)
  | sdkRequest (call : GeminiCall) (result : String)
  deriving DecidableEq, Repr

/-- `generateContent` (lines 18–123), with the transport responses passed as
arguments: line 24 branches on the truthiness of `req.baseUrl`; Path A builds
the endpoint and body and runs the fetch/try/catch against `httpResp`; Path B
builds the SDK call and extracts text from `sdkResp`. -/
def generateContent (req : AIRequest) (httpResp : HttpResponse)
    (sdkResp : GeminiResponse) : Outcome :=
  if truthy req.baseUrl then
    Outcome.httpRequest (buildEndpoint (req.baseUrl.getD ""))
      (buildBody req) (pathA httpResp)
  else
    Outcome.sdkRequest (buildGeminiCall req) (pathB sdkResp)

/-- Contiguous-subsequence test: `containsSeq needle hay` holds when `needle`
occurs contiguously inside `hay` (used to state "the error message includes
…"). -/
def containsSeq {α : Type} [BEq α] (needle : List α) : List α → Bool
  | [] => needle.isEmpty
  | a :: t => needle.isPrefixOf (a :: t) || containsSeq needle t

/-- `strContains hay needle`: `needle` occurs contiguously in `hay`. -/
def strContains (hay needle : String) : Bool :=
  containsSeq needle.data hay.data

/-! ### Helper lemmas -/

theorem head?_dropWhile_false {α : Type} (p : α → Bool) (l : List α) (c : α)
    (h : (l.dropWhile p).head? = some c) : p c = false := by
  induction l with
  | nil => simp [List.dropWhile] at h
  | cons a t ih =>
    rw [List.dropWhile_cons] at h
    by_cases hp : p a = true
    · rw [if_pos hp] at h
      exact ih h
    · rw [if_neg hp] at h
      simp only [List.head?_cons, Option.some.injEq] at h
      subst h
      simpa using hp

theorem stripTrailingSlashes_spec (u : String) :
    (∀ c, (stripTrailingSlashes u).data.getLast? = some c → c ≠ '/') ∧
    (∃ k, u = stripTrailingSlashes u ++ String.mk (List.replicate k '/')) := by
  constructor
  · intro c hc
    rw [stripTrailingSlashes] at hc
    simp only [List.getLast?_reverse] at hc
    have := head?_dropWhile_false (fun c => c == '/') u.data.reverse c hc
    simpa using this
  · have hsplit := List.takeWhile_append_dropWhile
      (p := fun c => c == '/') (l := u.data.reverse)
    have hrepl : u.data.reverse.takeWhile (fun c => c == '/') =
        List.replicate (u.data.reverse.takeWhile (fun c => c == '/')).length '/' := by
      apply List.eq_replicate_of_mem
      intro b hb
      have := List.mem_takeWhile_imp hb
      simpa using this
    refine ⟨(u.data.reverse.takeWhile (fun c => c == '/')).length, ?_⟩
    apply String.ext
    rw [String.data_append]
    show u.data = (u.data.reverse.dropWhile (fun c => c == '/')).reverse ++
      List.replicate (u.data.reverse.takeWhile (fun c => c == '/')).length '/'
    conv_lhs => rw [← List.reverse_reverse u.data, ← hsplit]
    rw [List.reverse_append]
    congr 1
    conv_lhs => rw [hrepl]
    rw [List.reverse_replicate]

/-! ### Claims -/

/-- C1: for every request, `generateContent` takes the HTTP
compatible-endpoint branch (Path A) exactly when `baseUrl` is present and
non-empty, and the vendor-SDK branch (Path B) exactly when `baseUrl` is
absent or the empty string; the two branches are mutually exclusive. -/
theorem c1_path_selection (req : AIRequest) (h : HttpResponse) (s : GeminiResponse) :
    ((∃ e b r, generateContent req h s = Outcome.httpRequest e b r) ↔
      (∃ u, req.baseUrl = some u ∧ u ≠ "")) ∧
    ((∃ c r, generateContent req h s = Outcome.sdkRequest c r) ↔
      (req.baseUrl = none ∨ req.baseUrl = some "")) := by
  rcases hb : req.baseUrl with _ | u
  · simp [generateContent, truthy, hb]
  · by_cases hu : u = "" <;> simp [generateContent, truthy, hb, hu]

/-- C2: for every non-empty `baseUrl`, the endpoint of the HTTP POST is
`baseUrl` with all trailing slashes stripped, used unchanged when the
stripped value already ends with `/chat/completions` and with
`/chat/completions` appended otherwise; in particular
`https://x.test/v1/` yields `https://x.test/v1/chat/completions` and
`https://x.test/v1/chat/completions` is used unchanged. -/
theorem c2_endpoint (req : AIRequest) (h : HttpResponse) (s : GeminiResponse)
    (u : String) (hb : req.baseUrl = some u) (hu : u ≠ "") :
    generateContent req h s =
      Outcome.httpRequest (buildEndpoint u) (buildBody req) (pathA h) ∧
    buildEndpoint u =
      (if strEndsWith (stripTrailingSlashes u) "/chat/completions" then
        stripTrailingSlashes u
      else stripTrailingSlashes u ++ "/chat/completions") ∧
    (∀ c, (stripTrailingSlashes u).data.getLast? = some c → c ≠ '/') ∧
    (∃ k, u = stripTrailingSlashes u ++ String.mk (List.replicate k '/')) ∧
    buildEndpoint "https://x.test/v1/" = "https://x.test/v1/chat/completions" ∧
    buildEndpoint "https://x.test/v1/chat/completions" =
      "https://x.test/v1/chat/completions" := by
  refine ⟨?_, rfl, (stripTrailingSlashes_spec u).1, (stripTrailingSlashes_spec u).2,
    by decide, by decide⟩
  simp [generateContent, truthy, hb, hu]

/-- Witness for C2 at `baseUrl = "https://x.test/v1/"`. -/
theorem c2_endpoint_witness :
    generateContent
        (AIRequest.mk "key" "mdl" (some "https://x.test/v1/") "p" none none none none)
        (HttpResponse.mk 200 "" (ApiResponse.mk none)) (GeminiResponse.mk none) =
      Outcome.httpRequest (buildEndpoint "https://x.test/v1/")
        (buildBody (AIRequest.mk "key" "mdl" (some "https://x.test/v1/") "p" none none none none))
        (pathA (HttpResponse.mk 200 "" (ApiResponse.mk none))) :=
  (c2_endpoint
    (AIRequest.mk "key" "mdl" (some "https://x.test/v1/") "p" none none none none)
    (HttpResponse.mk 200 "" (ApiResponse.mk none)) (GeminiResponse.mk none)
    "https://x.test/v1/" rfl (by decide)).1

/-- C3: for every Path A request with `jsonSchema` present, the outbound body
has `response_format = json_object` and the final user-message text ends with
the literal suffix appended to the prompt part's text; the suffix logic
handles both the bare-string form and the parts-sequence form of a message's
content. -/
theorem c3_json_mode (req : AIRequest) (h : HttpResponse) (s : GeminiResponse)
    (hb : truthy req.baseUrl = true) (sch : Schema) (hj : req.jsonSchema = some sch) :
    generateContent req h s =
      Outcome.httpRequest (buildEndpoint (req.baseUrl.getD "")) (buildBody req) (pathA h) ∧
    (buildBody req).response_format = some "json_object" ∧
    (∃ rest, (buildBody req).messages.getLast? =
      some (ChatMessage.mk "user"
        (MsgContent.parts (ContentPart.text (req.prompt ++ jsonSuffix) :: rest)))) ∧
    (∀ r s0, appendJsonSuffix (ChatMessage.mk r (MsgContent.str s0)) =
      ChatMessage.mk r (MsgContent.str (s0 ++ jsonSuffix))) ∧
    (∀ r t rest,
      appendJsonSuffix (ChatMessage.mk r (MsgContent.parts (ContentPart.text t :: rest))) =
        ChatMessage.mk r (MsgContent.parts (ContentPart.text (t ++ jsonSuffix) :: rest))) := by
  refine ⟨by simp [generateContent, hb], by simp [buildBody, hj], ?_,
    fun r s0 => rfl, fun r t rest => rfl⟩
  refine ⟨if truthy req.image then
    [ContentPart.imageUrl ("data:" ++ effMimeType req ++ ";base64," ++ req.image.getD "")]
  else [], ?_⟩
  cases hsi : truthy req.systemInstruction <;> cases him : truthy req.image <;>
    simp [buildBody, hj, baseMessages, userContent, mapLast, appendJsonSuffix, hsi, him]

/-- Witness for C3 at a concrete Path A request with a schema. -/
theorem c3_json_mode_witness :
    (buildBody (AIRequest.mk "k" "m" (some "https://b.test") "p" none none none
        (some (Schema.mk [])))).response_format = some "json_object" :=
  (c3_json_mode
    (AIRequest.mk "k" "m" (some "https://b.test") "p" none none none (some (Schema.mk [])))
    (HttpResponse.mk 200 "" (ApiResponse.mk none)) (GeminiResponse.mk none)
    (by decide) (Schema.mk []) rfl).2.1

/-- C4: for every Path A request whose HTTP response has a non-success
status, the call fails with an error message carrying the status code and the
body text; at status 500 with body `server error` the message is
`AI Request Failed: API Error 500: server error`, which contains both `500`
and `server error`. -/
theorem c4_http_error (req : AIRequest) (h : HttpResponse) (s : GeminiResponse)
    (hb : truthy req.baseUrl = true) (hok : h.ok = false) :
    generateContent req h s =
      Outcome.httpRequest (buildEndpoint (req.baseUrl.getD "")) (buildBody req)
        (Except.error ("AI Request Failed: " ++
          ("API Error " ++ toString h.status ++ ": " ++ h.bodyText))) ∧
    (h.status = 500 → h.bodyText = "server error" →
      pathA h = Except.error "AI Request Failed: API Error 500: server error" ∧
      strContains "AI Request Failed: API Error 500: server error" "500" = true ∧
      strContains "AI Request Failed: API Error 500: server error" "server error" = true) := by
  constructor
  · simp [generateContent, hb, pathA, pathATry, hok, wrapError]
  · intro hstat hbody
    refine ⟨?_, by decide, by decide⟩
    simp [pathA, pathATry, hok, hstat, hbody, wrapError]
    decide

/-- Witness for C4 at status 500, body `server error`. -/
theorem c4_http_error_witness :
    pathA (HttpResponse.mk 500 "server error" (ApiResponse.mk none)) =
      Except.error "AI Request Failed: API Error 500: server error" :=
  ((c4_http_error
    (AIRequest.mk "k" "m" (some "https://b.test") "p" none none none none)
    (HttpResponse.mk 500 "server error" (ApiResponse.mk none)) (GeminiResponse.mk none)
    (by decide) (by decide)).2 rfl rfl).1

/-- C5: for every Path A request whose HTTP response succeeds, the call
returns the string at `choices[0].message.content` of the parsed response,
and throws `No content in response` (wrapped by the catch into
`AI Request Failed: No content in response`) when that field is absent or
empty; the example response with content `hello` resolves to `hello`. -/
theorem c5_success_extraction (req : AIRequest) (h : HttpResponse) (s : GeminiResponse)
    (hb : truthy req.baseUrl = true) (hok : h.ok = true) :
    (∀ c, extractContent h.json = some c → c ≠ "" →
      generateContent req h s =
        Outcome.httpRequest (buildEndpoint (req.baseUrl.getD "")) (buildBody req)
          (Except.ok c)) ∧
    (extractContent h.json = none ∨ extractContent h.json = some "" →
      pathATry h = Except.error "No content in response" ∧
      generateContent req h s =
        Outcome.httpRequest (buildEndpoint (req.baseUrl.getD "")) (buildBody req)
          (Except.error "AI Request Failed: No content in response")) ∧
    extractContent (ApiResponse.mk
      (some [RespChoice.mk (some (RespMessage.mk (some "hello")))])) = some "hello" ∧
    pathA (HttpResponse.mk 200 ""
      (ApiResponse.mk (some [RespChoice.mk (some (RespMessage.mk (some "hello")))]))) =
      Except.ok "hello" := by
  refine ⟨?_, ?_, by decide, by decide⟩
  · intro c hc hcne
    simp [generateContent, hb, pathA, pathATry, hok, hc, hcne, wrapError]
  · rintro (hc | hc) <;>
      simp [generateContent, hb, pathA, pathATry, hok, hc, wrapError]

/-- Witness for C5 at a concrete successful response carrying `hello`. -/
theorem c5_success_extraction_witness :
    generateContent (AIRequest.mk "k" "m" (some "https://b.test") "p" none none none none)
        (HttpResponse.mk 200 ""
          (ApiResponse.mk (some [RespChoice.mk (some (RespMessage.mk (some "hello")))])))
        (GeminiResponse.mk none) =
      Outcome.httpRequest
        (buildEndpoint "https://b.test")
        (buildBody (AIRequest.mk "k" "m" (some "https://b.test") "p" none none none none))
        (Except.ok "hello") :=
  (c5_success_extraction
    (AIRequest.mk "k" "m" (some "https://b.test") "p" none none none none)
    (HttpResponse.mk 200 ""
      (ApiResponse.mk (some [RespChoice.mk (some (RespMessage.mk (some "hello")))])))
    (GeminiResponse.mk none) (by decide) (by decide)).1 "hello" rfl (by decide)

/-- C6: for every Path B request, the call returns the SDK response's `text`
field, and returns the empty string without failing when that field is absent
(or empty) — asymmetric with Path A, which fails on absent or empty
content. -/
theorem c6_pathB_text (req : AIRequest) (h : HttpResponse) (s : GeminiResponse)
    (hb : truthy req.baseUrl = false) :
    generateContent req h s = Outcome.sdkRequest (buildGeminiCall req) (pathB s) ∧
    (s.text = none → pathB s = "") ∧
    (∀ t, s.text = some t → t ≠ "" → pathB s = t) ∧
    (s.text = some "" → pathB s = "") ∧
    (∀ h2 : HttpResponse, h2.ok = true → extractContent h2.json = some "" →
      pathATry h2 = Except.error "No content in response") := by
  refine ⟨by simp [generateContent, hb], ?_, ?_, ?_, ?_⟩
  · intro ht
    simp [pathB, ht]
  · intro t ht htne
    simp [pathB, ht, htne]
  · intro ht
    simp [pathB, ht]
  · intro h2 hok hc
    simp [pathATry, hok, hc]

/-- Witness for C6: a Path B request with a text-less SDK response resolves
to the empty string. -/
theorem c6_pathB_text_witness :
    generateContent (AIRequest.mk "k" "m" none "p" none none none none)
        (HttpResponse.mk 200 "" (ApiResponse.mk none)) (GeminiResponse.mk none) =
      Outcome.sdkRequest
        (buildGeminiCall (AIRequest.mk "k" "m" none "p" none none none none))
        (pathB (GeminiResponse.mk none)) :=
  (c6_pathB_text (AIRequest.mk "k" "m" none "p" none none none none)
    (HttpResponse.mk 200 "" (ApiResponse.mk none)) (GeminiResponse.mk none)
    (by decide)).1

/-- C7 counterexample: with `image = some ""` the image field is present and
`mimeType` is absent, yet neither path builds any image part at all — the
code tests JavaScript truthiness (`if (req.image)`), not presence. -/
theorem c7_counterexample :
    (AIRequest.mk "k" "m" none "p" none (some "") none none).image = some "" ∧
    (AIRequest.mk "k" "m" none "p" none (some "") none none).mimeType = none ∧
    userContent (AIRequest.mk "k" "m" none "p" none (some "") none none) =
      [ContentPart.text "p"] ∧
    geminiParts (AIRequest.mk "k" "m" none "p" none (some "") none none) =
      [GeminiPart.text "p"] ∧
    ¬ (∃ u, ContentPart.imageUrl u ∈
        userContent (AIRequest.mk "k" "m" none "p" none (some "") none none)) ∧
    ¬ (∃ mt d, GeminiPart.inlineData mt d ∈
        geminiParts (AIRequest.mk "k" "m" none "p" none (some "") none none)) := by
  refine ⟨rfl, rfl, by decide, by decide, ?_, ?_⟩
  · rintro ⟨u, hu⟩
    simp [userContent, truthy] at hu
  · rintro ⟨mt, d, hd⟩
    simp [geminiParts, truthy] at hd

/-- C7 (amended): for every request whose `image` is present and non-empty
and whose `mimeType` is absent, the MIME type used is `image/png`: the Path A
image part's data URI is `data:image/png;base64,<image>` and the Path B
inline-data part's mimeType is `image/png`. -/
theorem c7_default_mime (req : AIRequest) (img : String) (hi : req.image = some img)
    (hne : img ≠ "") (hm : req.mimeType = none) :
    userContent req = [ContentPart.text req.prompt,
      ContentPart.imageUrl ("data:image/png;base64," ++ img)] ∧
    geminiParts req =
      [GeminiPart.inlineData "image/png" img, GeminiPart.text req.prompt] := by
  have hlit : ("data:" : String) ++ "image/png" ++ ";base64," = "data:image/png;base64," := by
    decide
  constructor
  · simp [userContent, truthy, hi, hne, effMimeType, hm, hlit]
  · simp [geminiParts, truthy, hi, hne, effMimeType, hm]

/-- Witness for the amended C7 at a concrete request with an image and no
MIME type. -/
theorem c7_default_mime_witness :
    userContent (AIRequest.mk "k" "m" none "p" none (some "IMG") none none) =
      [ContentPart.text "p", ContentPart.imageUrl "data:image/png;base64,IMG"] :=
  (c7_default_mime (AIRequest.mk "k" "m" none "p" none (some "IMG") none none)
    "IMG" rfl (by decide) rfl).1

/-- C8 counterexample: with `image = some ""` the image field is present, yet
the Path B parts sequence is just the text part — no inline-data part comes
first — because the code tests truthiness, not presence. -/
theorem c8_counterexample :
    (AIRequest.mk "k" "m" none "q" none (some "") none none).image = some "" ∧
    geminiParts (AIRequest.mk "k" "m" none "q" none (some "") none none) =
      [GeminiPart.text "q"] ∧
    ¬ (∃ mt d rest,
        geminiParts (AIRequest.mk "k" "m" none "q" none (some "") none none) =
          GeminiPart.inlineData mt d :: rest) := by
  refine ⟨rfl, by decide, ?_⟩
  rintro ⟨mt, d, rest, hd⟩
  simp [geminiParts, truthy] at hd

/-- C8 (amended): for every request whose `image` is present and non-empty,
Path B puts the inline-data part first and the text part (the prompt) second,
while Path A puts the text part first and the image part second; with no
truthy image both paths build exactly the text part. -/
theorem c8_part_order (req : AIRequest) (img : String) (hi : req.image = some img)
    (hne : img ≠ "") :
    geminiParts req =
      [GeminiPart.inlineData (effMimeType req) img, GeminiPart.text req.prompt] ∧
    userContent req = [ContentPart.text req.prompt,
      ContentPart.imageUrl ("data:" ++ effMimeType req ++ ";base64," ++ img)] ∧
    (∀ req2 : AIRequest, truthy req2.image = false →
      geminiParts req2 = [GeminiPart.text req2.prompt] ∧
      userContent req2 = [ContentPart.text req2.prompt]) := by
  refine ⟨by simp [geminiParts, truthy, hi, hne],
    by simp [userContent, truthy, hi, hne], ?_⟩
  intro req2 h2
  constructor <;> simp [geminiParts, userContent, h2]

/-- Witness for the amended C8 at a concrete request with a JPEG image. -/
theorem c8_part_order_witness :
    geminiParts (AIRequest.mk "k" "m" none "p" none (some "IMG") (some "image/jpeg") none) =
      [GeminiPart.inlineData
        (effMimeType (AIRequest.mk "k" "m" none "p" none (some "IMG") (some "image/jpeg") none))
        "IMG",
      GeminiPart.text "p"] :=
  (c8_part_order (AIRequest.mk "k" "m" none "p" none (some "IMG") (some "image/jpeg") none)
    "IMG" rfl (by decide)).1

/-- C9 counterexample: with `systemInstruction = some ""` the field is
present, yet the Path B config omits it — the code tests truthiness
(`if (req.systemInstruction)`), not presence. -/
theorem c9_counterexample :
    (AIRequest.mk "k" "m" none "p" (some "") none none none).systemInstruction =
      some "" ∧
    (buildGeminiCall
      (AIRequest.mk "k" "m" none "p" (some "") none none none)).config.systemInstruction =
      none := by
  decide

/-- C9 (amended): for every Path B request, the config contains
`systemInstruction` exactly when the request's `systemInstruction` is present
and non-empty; when `jsonSchema` is present the config carries
`responseMimeType = application/json` together with the schema as
`responseSchema` (and neither when absent); and the prompt is passed
unchanged as the text part — no JSON-format suffix on this path. -/
theorem c9_gemini_config (req : AIRequest) :
    (∀ si, req.systemInstruction = some si → si ≠ "" →
      (buildGeminiCall req).config.systemInstruction = some si) ∧
    (truthy req.systemInstruction = false →
      (buildGeminiCall req).config.systemInstruction = none) ∧
    (∀ sch, req.jsonSchema = some sch →
      (buildGeminiCall req).config.responseMimeType = some "application/json" ∧
      (buildGeminiCall req).config.responseSchema = some sch) ∧
    (req.jsonSchema = none →
      (buildGeminiCall req).config.responseMimeType = none ∧
      (buildGeminiCall req).config.responseSchema = none) ∧
    (geminiParts req).getLast? = some (GeminiPart.text req.prompt) := by
  refine ⟨?_, ?_, ?_, ?_, ?_⟩
  · intro si hsi hne
    simp [buildGeminiCall, geminiConfig, truthy, hsi, hne]
  · intro h2
    simp [buildGeminiCall, geminiConfig, h2]
  · intro sch hj
    constructor <;> simp [buildGeminiCall, geminiConfig, hj]
  · intro hj
    constructor <;> simp [buildGeminiCall, geminiConfig, hj]
  · cases him : truthy req.image <;> simp [geminiParts, him]

/-- Witness for the amended C9 at a concrete schema-less request with a
system instruction: the config contains it even though no schema is set. -/
theorem c9_gemini_config_witness :
    (buildGeminiCall
      (AIRequest.mk "k" "m" none "p" (some "sys") none none none)).config.systemInstruction =
      some "sys" :=
  (c9_gemini_config
    (AIRequest.mk "k" "m" none "p" (some "sys") none none none)).1 "sys" rfl (by decide)

/-- C10: for every Path A request, the user message built by the code always
has parts-sequence content whose first element is the text part holding the
prompt (never a bare string, so the bare-string branch of the suffix logic is
unreachable on content this function builds), the user message is the last
message, and appending the JSON suffix leaves every earlier message — in
particular the system message — unchanged. -/
theorem c10_user_message_invariant (req : AIRequest) :
    (baseMessages req).getLast? =
      some (ChatMessage.mk "user" (MsgContent.parts (userContent req))) ∧
    (userContent req).head? = some (ContentPart.text req.prompt) ∧
    (∃ ps, (buildBody req).messages.getLast? =
      some (ChatMessage.mk "user" (MsgContent.parts ps))) ∧
    (buildBody req).messages.dropLast = (baseMessages req).dropLast := by
  refine ⟨?_, by simp [userContent], ?_, ?_⟩
  · cases hsi : truthy req.systemInstruction <;> simp [baseMessages, hsi]
  · cases hj : req.jsonSchema.isSome
    · refine ⟨userContent req, ?_⟩
      cases hsi : truthy req.systemInstruction <;>
        simp [buildBody, hj, baseMessages, hsi]
    · refine ⟨ContentPart.text (req.prompt ++ jsonSuffix) ::
        (if truthy req.image then
          [ContentPart.imageUrl
            ("data:" ++ effMimeType req ++ ";base64," ++ req.image.getD "")]
        else []), ?_⟩
      cases hsi : truthy req.systemInstruction <;> cases him : truthy req.image <;>
        simp [buildBody, hj, baseMessages, userContent, mapLast, appendJsonSuffix,
          hsi, him]
  · cases hj : req.jsonSchema.isSome <;>
      cases hsi : truthy req.systemInstruction <;>
      cases him : truthy req.image <;>
      simp [buildBody, hj, baseMessages, userContent, mapLast, appendJsonSuffix,
        hsi, him]

end AiHelper
